import Mathlib

/-!
Verification development for the Multi-User Blog API backend.

This file shallowly embeds the authentication/authorization core of the
repository — the password utilities (`src/utils/security.py`), the pagination
validator (`src/utils/validators.py`), the auth, user and post services
(`src/services/*.py`), the JWT middleware (`src/middleware/auth.py`) and the
relevant route bodies (`src/routes/post_routes.py`, `src/routes/auth_routes.py`)
— as executable Lean definitions, and proves the claimed properties about them.

Conventions of the embedding:
  * the SQLAlchemy session is explicit state: a `DB` record threaded through
    the services; a raised Python exception is an `Except.error`;
  * timestamps are abstract `Nat` instants supplied as a `now` argument;
  * randomness (bcrypt salt generation) is an explicit salt argument;
  * `str.lower()` is `pyLower` (ASCII character-wise lowering);
  * Python `in` on strings is `strContains` (substring test).
-/

namespace BlogAPI

/-- Python `str.lower()` on one character (ASCII range, as the repository's
usernames/emails are constrained to). -/
def lowerChar (c : Char) : Char :=
  if 65 ≤ c.toNat ∧ c.toNat ≤ 90 then Char.ofNat (c.toNat + 32) else c

/-- Python `str.lower()`. -/
def pyLower (s : String) : String := String.mk (s.data.map lowerChar)

/-- Python `pat in s` substring membership. -/
def strContains (s pat : String) : Bool := decide (pat.toList <:+: s.toList)

/-! ## Password hasher (`src/utils/security.py`)

`hash_password` and `verify_password` wrap the external bcrypt library
(`bcrypt.gensalt`, `bcrypt.hashpw`, `bcrypt.checkpw`). -/

/-- Modelled from the spec: the bcrypt library itself is not part of `src/`.
Per spec §4.1 a hash is an opaque value derived from the plaintext and a
random salt; we model the opaque bcrypt hash string as a record of the salt
it embeds and a digest of (plaintext, salt). -/
structure BcryptHash where
  salt : Nat
  digest : Nat
  deriving Repr, DecidableEq

/-- Modelled from the spec: bcrypt's one-way digest of a plaintext under a
salt (the model only needs it to be a deterministic function). -/
def bcrypt_digest (password : String) (salt : Nat) : Nat :=
  password.data.foldl (fun a c => a * 131 + c.toNat) 7 + salt

/-- Modelled from the spec: `bcrypt.hashpw(password, salt)` — the opaque hash
carries the salt together with the digest. -/
def bcrypt_hashpw (password : String) (salt : Nat) : BcryptHash :=
  { salt := salt, digest := bcrypt_digest password salt }

/-- Modelled from the spec: `bcrypt.checkpw(password, hash)` re-derives the
hash from the salt stored inside `hash` and compares. -/
def bcrypt_checkpw (password : String) (h : BcryptHash) : Bool :=
  bcrypt_hashpw password h.salt == h

/-- `hash_password` (src/utils/security.py:12): bcrypt-hash the password under
a freshly generated salt; the randomness of `bcrypt.gensalt` is the explicit
`salt` argument. -/
def hash_password (salt : Nat) (password : String) : BcryptHash :=
  bcrypt_hashpw password salt

/-- `verify_password` (src/utils/security.py:39). -/
def verify_password (password : String) (password_hash : BcryptHash) : Bool :=
  bcrypt_checkpw password password_hash

/-! ## Data model (`src/models/user.py`, `src/models/post.py`,
`src/models/mixins.py`) -/

/-- A row of the `users` table. -/
structure User where
  id : Nat
  username : String
  email : String
  password_hash : BcryptHash
  role : String
  is_active : Bool
  created_at : Nat
  updated_at : Nat
  deriving Repr, DecidableEq

/-- A row of the `posts` table. -/
structure Post where
  id : Nat
  title : String
  content : String
  author_id : Nat
  created_at : Nat
  updated_at : Nat
  deriving Repr, DecidableEq

/-- `Post.is_author` (src/models/post.py:59). -/
def Post.is_author (p : Post) (user_id : Nat) : Bool := p.author_id == user_id

/-- `User.is_admin` (src/models/user.py:83). -/
def User.is_admin (u : User) : Bool := u.role == "admin"

/-- The database session's view of the store: rows in insertion order plus
the autoincrement counters. -/
structure DB where
  users : List User
  posts : List Post
  nextUserId : Nat
  nextPostId : Nat
  deriving Repr, DecidableEq

/-! ## Exceptions (`src/config/exceptions.py`) -/

/-- The repository's typed errors (`BlogAPIError` subclasses). -/
inductive BlogError where
  | validationError (message : String) (field : Option String)
  | authenticationError (message : String)
  | authorizationError (message : String)
  | userNotFoundError (user_id : Option Nat)
  | postNotFoundError (post_id : Option Nat)
  | duplicateUserError (field value : String)
  | databaseError (message : String)
  deriving Repr, DecidableEq

/-- SQLAlchemy exceptions surfacing from a commit: `IntegrityError` (a
subclass of `SQLAlchemyError`) carries the constraint message that
`register_user` string-matches on. -/
inductive SqlExc where
  | integrityError (msg : String)
  | otherSqlError (msg : String)
  deriving Repr, DecidableEq

/-! ## Auth service (`src/services/auth_service.py`) -/

/-- The statement echo SQLAlchemy appends to `str(e)` of a `StatementError`:
every `IntegrityError` raised by this insert carries the offending SQL, so
its text always contains the column list of the `users` table — in
particular the substring `username` — whatever constraint was violated. -/
def insert_echo : String :=
  " [SQL: INSERT INTO users (username, email, password_hash, role, is_active, created_at, updated_at) VALUES (?, ?, ?, ?, ?, ?, ?)]"

/-- The store-side commit of a new user row: the unique and check constraints
declared on the `users` table (src/models/user.py:29-78) can reject the
insert with an `IntegrityError` whose `str(e)` is the driver's constraint
message followed by the echoed INSERT statement — the string
`register_user`'s handler substring-matches on. `dbCommit` is the store's
state at commit time, which under a concurrent registration may differ from
the state the pre-flight reads saw. -/
def user_insert_commit (dbCommit : DB) (u : User) : Except SqlExc DB :=
  if dbCommit.users.any (fun v => v.username == u.username) then
    .error (.integrityError
      ("(sqlite3.IntegrityError) UNIQUE constraint failed: users.username"
        ++ insert_echo))
  else if dbCommit.users.any (fun v => v.email == u.email) then
    .error (.integrityError
      ("(sqlite3.IntegrityError) UNIQUE constraint failed: users.email"
        ++ insert_echo))
  else if u.username.length < 3 then
    .error (.integrityError
      ("(sqlite3.IntegrityError) CHECK constraint failed: username_min_length"
        ++ insert_echo))
  else if !strContains u.email "@" then
    .error (.integrityError
      ("(sqlite3.IntegrityError) CHECK constraint failed: email_format"
        ++ insert_echo))
  else if !(u.role == "user" || u.role == "admin") then
    .error (.integrityError
      ("(sqlite3.IntegrityError) CHECK constraint failed: valid_role"
        ++ insert_echo))
  else
    .ok { dbCommit with users := dbCommit.users ++ [u],
                        nextUserId := dbCommit.nextUserId + 1 }

/-- `AuthService.register_user` (src/services/auth_service.py:24): pre-flight
duplicate reads against `dbRead`, then hash and insert against `dbCommit`
(equal to `dbRead` when no concurrent registration intervened), translating a
commit-time `IntegrityError` by substring-matching its message. -/
def register_user (dbRead dbCommit : DB) (username email password role : String)
    (salt : Nat) (now : Nat) : Except BlogError (DB × User) :=
  if (dbRead.users.find? (fun u => u.username == pyLower username)).isSome then
    .error (.duplicateUserError "username" username)
  else if (dbRead.users.find? (fun u => u.email == pyLower email)).isSome then
    .error (.duplicateUserError "email" email)
  else
    let password_hash := hash_password salt password
    let user : User :=
      { id := dbCommit.nextUserId
        username := pyLower username
        email := pyLower email
        password_hash := password_hash
        role := role
        is_active := true
        created_at := now
        updated_at := now }
    match user_insert_commit dbCommit user with
    | .ok db2 => .ok (db2, user)
    | .error (.integrityError msg) =>
        if strContains (pyLower msg) "username" then
          .error (.duplicateUserError "username" username)
        else if strContains (pyLower msg) "email" then
          .error (.duplicateUserError "email" email)
        else
          .error (.databaseError ("Failed to create user: " ++ msg))
    | .error (.otherSqlError msg) =>
        .error (.databaseError ("Failed to create user: " ++ msg))

/-- `AuthService.authenticate_user` (src/services/auth_service.py:83): find
the first user whose username or email equals the lowercased input, then
check activity and password. -/
def authenticate_user (db : DB) (username password : String) :
    Except BlogError User :=
  match db.users.find?
      (fun u => u.username == pyLower username || u.email == pyLower username) with
  | none => .error (.authenticationError "Invalid username or password")
  | some user =>
      if !user.is_active then
        .error (.authenticationError "Account is inactive")
      else if !verify_password password user.password_hash then
        .error (.authenticationError "Invalid username or password")
      else
        .ok user

/-! ## Pagination validator (`src/utils/validators.py`) -/

/-- A Python value handed to `validate_pagination`: either something `int()`
accepts (an integer) or something on which `int()` raises
`ValueError`/`TypeError`. Absent arguments are `Option.none` at the call. -/
inductive PVal where
  | int (n : Int)
  | bad
  deriving Repr, DecidableEq

/-- `validate_pagination` (src/utils/validators.py:8): defaults, then range
checks with field-level `ValidationError`s. -/
def validate_pagination (page per_page : Option PVal) :
    Except BlogError (Int × Int) :=
  let pageV := page.getD (.int 1)
  let perV := per_page.getD (.int 10)
  match pageV with
  | .bad => .error (.validationError "Page must be a number" (some "page"))
  | .int n =>
      if n < 1 then
        .error (.validationError "Page must be >= 1" (some "page"))
      else
        match perV with
        | .bad =>
            .error (.validationError "Per page must be a number" (some "per_page"))
        | .int m =>
            if m < 1 then
              .error (.validationError "Per page must be >= 1" (some "per_page"))
            else if m > 100 then
              .error (.validationError "Per page must be <= 100" (some "per_page"))
            else
              .ok (n, m)

/-! ## Post service (`src/services/post_service.py`) -/

/-- Insert a post into the result of `ORDER BY created_at DESC`: it goes in
front of the first existing row whose `created_at` does not exceed it, so
rows with equal `created_at` keep their relative table order. This realises
the single-key ordering of `get_all_posts` (src/services/post_service.py:47),
which names no tie-breaking column. -/
def insertByCreatedDesc (p : Post) : List Post → List Post
  | [] => [p]
  | q :: rest =>
      if q.created_at ≤ p.created_at then p :: q :: rest
      else q :: insertByCreatedDesc p rest

/-- The store's answer to `Post.query.order_by(Post.created_at.desc())`:
a stable descending sort of the table rows on `created_at` alone. -/
def orderByCreatedDesc : List Post → List Post
  | [] => []
  | p :: rest => insertByCreatedDesc p (orderByCreatedDesc rest)

/-- The shape `get_all_posts` returns. -/
structure Paginated where
  items : List Post
  total : Nat
  page : Int
  per_page : Int
  pages : Nat
  deriving Repr, DecidableEq

/-- `PostService.get_all_posts` (src/services/post_service.py:27): validate
pagination first, then query ordered by creation date (newest first) and
paginate with `error_out=False` (Flask-SQLAlchemy: `pages` is
`ceil(total / per_page)`, `0` when the table is empty). -/
def get_all_posts (db : DB) (page per_page : Option PVal) :
    Except BlogError Paginated :=
  match validate_pagination page per_page with
  | .error e => .error e
  | .ok (p, pp) =>
      let sorted := orderByCreatedDesc db.posts
      let total := sorted.length
      let items := (sorted.drop ((p - 1).toNat * pp.toNat)).take pp.toNat
      let pages := if total = 0 then 0 else (total + pp.toNat - 1) / pp.toNat
      .ok { items := items, total := total, page := p, per_page := pp,
            pages := pages }

/-- `PostService.get_post_by_id` (src/services/post_service.py:66). -/
def get_post_by_id (db : DB) (post_id : Nat) : Except BlogError Post :=
  match db.posts.find? (fun p => p.id == post_id) with
  | none => .error (.postNotFoundError (some post_id))
  | some p => .ok p

/-- The check constraints of the `posts` table (src/models/post.py:47-54)
that a commit re-checks at the store. -/
def post_row_ok (p : Post) : Bool :=
  decide (0 < p.title.length) && decide (10 ≤ p.content.length)

/-- `PostService.update_post` (src/services/post_service.py:160): fetch,
check ownership, apply only the provided fields, commit. The commit updates
the row (refreshing `updated_at` through the `TimestampMixin.onupdate` hook)
only when a field value actually changed — SQLAlchemy flushes no UPDATE for
a no-op assignment — and surfaces a constraint violation as a
`DatabaseError` (the `SQLAlchemyError` branch). -/
def update_post (db : DB) (post_id user_id : Nat)
    (title content : Option String) (now : Nat) :
    Except BlogError (DB × Post) :=
  match get_post_by_id db post_id with
  | .error e => .error e
  | .ok post =>
      if !post.is_author user_id then
        .error (.authorizationError "You can only update your own posts")
      else
        let newTitle := title.getD post.title
        let newContent := content.getD post.content
        let post2 :=
          if newTitle == post.title && newContent == post.content then post
          else { post with title := newTitle, content := newContent,
                           updated_at := now }
        if !post_row_ok post2 then
          .error (.databaseError "Failed to update post: IntegrityError")
        else
          .ok ({ db with
                  posts := db.posts.map
                    (fun q => if q.id == post_id then post2 else q) },
               post2)

/-- `PostService.delete_post` (src/services/post_service.py:200): fetch, then
allow when the acting user is an admin or the author, removing the row. -/
def delete_post (db : DB) (post_id user_id : Nat) (user_role : String) :
    Except BlogError (DB × Post) :=
  match get_post_by_id db post_id with
  | .error e => .error e
  | .ok post =>
      if user_role != "admin" && !post.is_author user_id then
        .error (.authorizationError "You can only delete your own posts")
      else
        .ok ({ db with posts := db.posts.filter (fun q => !(q.id == post_id)) },
             post)

/-! ## User service (`src/services/user_service.py`) -/

/-- `UserService.get_user_by_id` (src/services/user_service.py:24). -/
def get_user_by_id (db : DB) (user_id : Nat) : Except BlogError User :=
  match db.users.find? (fun u => u.id == user_id) with
  | none => .error (.userNotFoundError (some user_id))
  | some u => .ok u

/-- `UserService.deactivate_user` (src/services/user_service.py:113): fetch,
set `is_active = False`, commit. As in `update_post`, the flush writes the
row (and refreshes `updated_at`) only when the value actually changed. -/
def deactivate_user (db : DB) (user_id : Nat) (now : Nat) :
    Except BlogError (DB × User) :=
  match db.users.find? (fun u => u.id == user_id) with
  | none => .error (.userNotFoundError (some user_id))
  | some u =>
      let u2 := if u.is_active then { u with is_active := false, updated_at := now }
                else u
      .ok ({ db with
              users := db.users.map (fun v => if v.id == user_id then u2 else v) },
           u2)

/-! ## JWT middleware (`src/middleware/auth.py`) and route plumbing

The token attached to an incoming request, as `verify_jwt_in_request` sees
it: either absent, malformed/badly signed, expired, or valid with a subject
user id. The first three make `verify_jwt_in_request` raise a library
exception (`NoAuthorizationError`, `InvalidTokenError`/`DecodeError`,
`ExpiredSignatureError` respectively); a valid token yields its subject. -/
inductive RToken where
  | missing
  | malformed
  | expired
  | valid (uid : Nat)
  deriving Repr, DecidableEq

/-- The flask_jwt_extended library exceptions the middleware can see. -/
inductive JwtExc where
  | noAuthorization
  | invalidToken
  | expiredToken
  deriving Repr, DecidableEq

/-- `verify_jwt_in_request()` followed by `get_jwt_identity()`. -/
def verify_jwt_in_request : RToken → Except JwtExc Nat
  | .missing => .error .noAuthorization
  | .malformed => .error .invalidToken
  | .expired => .error .expiredToken
  | .valid uid => .ok uid

/-- `get_current_user` (src/middleware/auth.py:21): verify the token, fetch
the subject from the store, reject a missing or inactive user. The
`except` clause re-raises `AuthenticationError` and `UserNotFoundError`
unchanged and collapses anything else (the library exceptions) to
`AuthenticationError("Invalid or expired token")`. -/
def get_current_user (db : DB) (tok : RToken) : Except BlogError User :=
  match verify_jwt_in_request tok with
  | .error _ => .error (.authenticationError "Invalid or expired token")
  | .ok user_id =>
      match db.users.find? (fun u => u.id == user_id) with
      | none => .error (.userNotFoundError (some user_id))
      | some user =>
          if !user.is_active then
            .error (.authenticationError "Account is inactive")
          else
            .ok user

/-- An HTTP response as `create_error_response`/`create_success_response`
produce it: a status code plus the error string of a failure envelope. -/
structure Response where
  status : Nat
  error : Option String
  deriving Repr, DecidableEq

/-- `jwt_required` (src/middleware/auth.py:73): run `verify_jwt_in_request`,
then the view; ANY exception — from the verification or escaping the view
body — is replaced by `AuthenticationError("Authentication required")`,
which the wrapper re-raises rather than turning into a response. -/
def jwt_required {α : Type} (tok : RToken) (fn : Except BlogError α) :
    Except BlogError α :=
  match verify_jwt_in_request tok with
  | .error _ => .error (.authenticationError "Authentication required")
  | .ok _ =>
      match fn with
      | .ok r => .ok r
      | .error _ => .error (.authenticationError "Authentication required")

/-- The Flask application boundary (src/app.py:55-81): the app registers
handlers for HTTP 404/405/500 and for the flask_jwt_extended exceptions
only; a `BlogAPIError` escaping a view has no registered handler, so Flask
converts it into the generic 500 response. -/
def flask_dispatch (result : Except BlogError Response) : Response :=
  match result with
  | .ok r => r
  | .error _ => { status := 500, error := some "Internal server error" }

/-! ## Post routes (`src/routes/post_routes.py`) -/

/-- `PostUpdate` (src/schemas/post.py:45): each provided field is validated,
title 1–200 characters, content at least 10; absent fields pass. -/
def postUpdate_valid (title content : Option String) : Bool :=
  (match title with
   | none => true
   | some t => decide (1 ≤ t.length) && decide (t.length ≤ 200)) &&
  (match content with
   | none => true
   | some c => decide (10 ≤ c.length))

/-- The body of the `update_post` view (src/routes/post_routes.py:147) as it
executes under `@jwt_required`: resolve the acting user, parse the body with
`PostUpdate`, call the service, and map each caught exception class to its
response; an exception no `except` clause lists (`UserNotFoundError` from
`get_current_user`) escapes the body. Returns the response together with the
resulting store. -/
def update_post_view (db : DB) (tok : RToken) (post_id : Nat)
    (title content : Option String) (now : Nat) :
    Except BlogError (Response × DB) :=
  match get_current_user db tok with
  | .error (.authenticationError m) => .ok ({ status := 401, error := some m }, db)
  | .error e => .error e
  | .ok user =>
      if !postUpdate_valid title content then
        .ok ({ status := 400, error := some "validation error" }, db)
      else
        match update_post db post_id user.id title content now with
        | .ok (db2, _post) => .ok ({ status := 200, error := none }, db2)
        | .error (.postNotFoundError _) =>
            .ok ({ status := 404, error := some "Post not found" }, db)
        | .error (.authenticationError m) =>
            .ok ({ status := 401, error := some m }, db)
        | .error (.authorizationError m) =>
            .ok ({ status := 403, error := some m }, db)
        | .error (.databaseError m) =>
            .ok ({ status := 500, error := some m }, db)
        | .error e => .error e

/-- A full `PUT /posts/<post_id>` request: the decorated view under the
Flask boundary. -/
def handle_update_request (db : DB) (tok : RToken) (post_id : Nat)
    (title content : Option String) (now : Nat) : Response × DB :=
  match jwt_required tok (update_post_view db tok post_id title content now) with
  | .ok (r, db2) => (r, db2)
  | .error e => (flask_dispatch (.error e), db)

/-- The `refresh` view (src/routes/auth_routes.py:139) under the library's
`@jwt_required(refresh=True)`, whose loaders map every token failure to a
401 response: re-resolve the user, reject an inactive account with 401, and
collapse any other exception (such as `UserNotFoundError`) to the generic
401. -/
def refresh_view (db : DB) (tok : RToken) : Response :=
  match verify_jwt_in_request tok with
  | .error _ => { status := 401, error := some "Authorization required" }
  | .ok user_id =>
      match get_user_by_id db user_id with
      | .error _ => { status := 401, error := some "Invalid or expired refresh token" }
      | .ok user =>
          if !user.is_active then
            { status := 401, error := some "Account is inactive" }
          else
            { status := 200, error := none }

/-! ## Concrete fixtures (test data for witnesses and counterexamples) -/

/-- A sample hash for fixture users. -/
def hashA : BcryptHash := hash_password 1 "Str0ngpw"

/-- An active regular user. -/
def alice : User :=
  { id := 1, username := "alice", email := "alice@x.com", password_hash := hashA,
    role := "user", is_active := true, created_at := 0, updated_at := 0 }

/-- An active admin. -/
def bobAdmin : User :=
  { id := 2, username := "bob", email := "bob@x.com", password_hash := hashA,
    role := "admin", is_active := true, created_at := 0, updated_at := 0 }

/-- A deactivated user. -/
def carol : User :=
  { id := 7, username := "carol", email := "carol@x.com", password_hash := hashA,
    role := "user", is_active := false, created_at := 0, updated_at := 0 }

/-- Two posts by alice with EQUAL creation times, inserted in id order. -/
def postA : Post :=
  { id := 1, title := "first post", content := "0123456789", author_id := 1,
    created_at := 5, updated_at := 5 }

/-- Second post of the tie. -/
def postB : Post :=
  { id := 2, title := "second post", content := "0123456789", author_id := 1,
    created_at := 5, updated_at := 5 }

/-- The main fixture store. -/
def dbMain : DB :=
  { users := [alice, bobAdmin, carol], posts := [postA, postB],
    nextUserId := 8, nextPostId := 3 }

/-- Fifteen posts with distinct creation times, for the pagination scenario. -/
def posts15 : List Post :=
  (List.range 15).map fun i =>
    { id := i + 1, title := "post", content := "0123456789", author_id := 1,
      created_at := i, updated_at := i }

/-- A store holding exactly 15 posts. -/
def db15 : DB :=
  { users := [alice], posts := posts15, nextUserId := 2, nextPostId := 16 }

/-! ## Helper lemmas -/

/-- Replacing every key-matching element of a list by a fixed key-matching
value commutes with `find?`: if something matched, the first match of the
mapped list is that value. -/
theorem find?_map_keyed {α : Type} (key : α → Bool) (u2 : α) (hk : key u2 = true) :
    ∀ l : List α, (l.find? key).isSome = true →
      (l.map (fun v => if key v then u2 else v)).find? key = some u2 := by
  intro l
  induction l with
  | nil => intro h; simp [List.find?] at h
  | cons x rest ih =>
      intro h
      by_cases hx : key x = true
      · simp [List.find?_cons, hx, hk]
      · have hx2 : key x = false := by simpa using hx
        have hrest : (rest.find? key).isSome = true := by
          simpa [List.find?_cons, hx2] using h
        simpa [List.find?_cons, hx2] using ih hrest

/-- Replacing key-matching elements by a fixed key-matching value is an
idempotent map. -/
theorem map_keyed_idem {α : Type} (key : α → Bool) (u2 : α) (hk : key u2 = true)
    (l : List α) :
    (l.map (fun v => if key v then u2 else v)).map
        (fun v => if key v then u2 else v) =
      l.map (fun v => if key v then u2 else v) := by
  rw [List.map_map]
  have hfun : ((fun v => if key v then u2 else v) ∘ fun v => if key v then u2 else v)
      = fun v : α => if key v then u2 else v := by
    funext v
    by_cases h : key v = true <;> simp [Function.comp, h, hk]
  rw [hfun]

/-- `insertByCreatedDesc` inserts its argument somewhere: the result is a
permutation of consing it. -/
theorem insertByCreatedDesc_perm (p : Post) (l : List Post) :
    List.Perm (insertByCreatedDesc p l) (p :: l) := by
  induction l with
  | nil => simp [insertByCreatedDesc]
  | cons q rest ih =>
      by_cases h : q.created_at ≤ p.created_at
      · simp [insertByCreatedDesc, h]
      · simp only [insertByCreatedDesc, if_neg h]
        exact ((ih.cons q).trans (List.Perm.swap p q rest))

/-- The single-key descending sort returns a permutation of the table rows. -/
theorem orderByCreatedDesc_perm (l : List Post) :
    List.Perm (orderByCreatedDesc l) l := by
  induction l with
  | nil => simp [orderByCreatedDesc]
  | cons p rest ih =>
      exact (insertByCreatedDesc_perm p (orderByCreatedDesc rest)).trans (ih.cons p)

/-- Inserting into a list sorted by descending creation time keeps it sorted. -/
theorem insertByCreatedDesc_sorted (p : Post) (l : List Post)
    (h : l.Pairwise (fun a b => b.created_at ≤ a.created_at)) :
    (insertByCreatedDesc p l).Pairwise (fun a b => b.created_at ≤ a.created_at) := by
  induction l with
  | nil => simp [insertByCreatedDesc]
  | cons q rest ih =>
      rcases List.pairwise_cons.mp h with ⟨hq, hrest⟩
      by_cases hle : q.created_at ≤ p.created_at
      · simp only [insertByCreatedDesc, if_pos hle]
        refine List.pairwise_cons.mpr ⟨?_, h⟩
        intro y hy
        rcases List.mem_cons.mp hy with hy1 | hy1
        · subst hy1; exact hle
        · exact le_trans (hq y hy1) hle
      · simp only [insertByCreatedDesc, if_neg hle]
        refine List.pairwise_cons.mpr ⟨?_, ih hrest⟩
        intro y hy
        have hy2 := (insertByCreatedDesc_perm p rest).mem_iff.mp hy
        rcases List.mem_cons.mp hy2 with hy3 | hy3
        · subst hy3; exact le_of_lt (lt_of_not_le hle)
        · exact hq y hy3

/-- The store's `ORDER BY created_at DESC` answer is sorted newest-first. -/
theorem orderByCreatedDesc_sorted (l : List Post) :
    (orderByCreatedDesc l).Pairwise (fun a b => b.created_at ≤ a.created_at) := by
  induction l with
  | nil => simp [orderByCreatedDesc]
  | cons p rest ih => exact insertByCreatedDesc_sorted p _ ih

/-! ## Claim theorems -/

/-- C9: for every password p, `verify(p, hash(p))` is true, and hashing the
same plaintext under the two distinct salts of two separate `hash_password`
calls yields different opaque hashes, each of which still verifies. -/
theorem hash_verify_roundtrip_and_salting (p : String) (s1 s2 : Nat)
    (hs : s1 ≠ s2) :
    verify_password p (hash_password s1 p) = true ∧
    verify_password p (hash_password s2 p) = true ∧
    hash_password s1 p ≠ hash_password s2 p := by
  refine ⟨?_, ?_, ?_⟩
  · simp [verify_password, bcrypt_checkpw, hash_password, bcrypt_hashpw]
  · simp [verify_password, bcrypt_checkpw, hash_password, bcrypt_hashpw]
  · intro hEq
    exact hs (congrArg BcryptHash.salt hEq)

/-- Witness for C9 at a concrete password and the salts 0 and 1. -/
theorem hash_verify_roundtrip_and_salting_witness :
    verify_password "Str0ngpw" (hash_password 0 "Str0ngpw") = true ∧
    verify_password "Str0ngpw" (hash_password 1 "Str0ngpw") = true ∧
    hash_password 0 "Str0ngpw" ≠ hash_password 1 "Str0ngpw" :=
  hash_verify_roundtrip_and_salting "Str0ngpw" 0 1 (by decide)

/-- C1: for an existing post P, `update_post` rejects every non-author with
`AuthorizationError` — also at the route level for an acting user of ANY
role, admins included — while `delete_post` succeeds exactly when the acting
user is an admin or the author, and otherwise raises `AuthorizationError`. -/
theorem post_update_delete_authorization (db : DB) (post_id user_id : Nat)
    (role : String) (title content : Option String) (now : Nat) (P : Post)
    (u : User) (hP : get_post_by_id db post_id = .ok P) :
    (P.author_id ≠ user_id →
      update_post db post_id user_id title content now =
        .error (.authorizationError "You can only update your own posts")) ∧
    (db.users.find? (fun v => v.id == u.id) = some u → u.is_active = true →
      postUpdate_valid title content = true → P.author_id ≠ u.id →
      (handle_update_request db (.valid u.id) post_id title content now).1 =
        { status := 403, error := some "You can only update your own posts" }) ∧
    (role = "admin" ∨ P.author_id = user_id →
      ∃ out, delete_post db post_id user_id role = .ok out) ∧
    (role ≠ "admin" → P.author_id ≠ user_id →
      delete_post db post_id user_id role =
        .error (.authorizationError "You can only delete your own posts")) := by
  have hA : ∀ uid : Nat, P.author_id ≠ uid → P.is_author uid = false := by
    intro uid h
    simpa [Post.is_author] using h
  refine ⟨?_, ?_, ?_, ?_⟩
  · intro hne
    simp [update_post, hP, hA user_id hne]
  · intro hfind hact hval hne
    simp [handle_update_request, jwt_required, verify_jwt_in_request,
          update_post_view, get_current_user, hfind, hact, hval, update_post,
          hP, hA u.id hne]
  · intro hor
    rcases hor with hadm | hauth
    · subst hadm
      have : delete_post db post_id user_id "admin" =
          .ok ({ db with posts := db.posts.filter (fun q => !(q.id == post_id)) },
               P) := by
        simp [delete_post, hP]
      exact ⟨_, this⟩
    · have hown : P.is_author user_id = true := by simp [Post.is_author, hauth]
      have : delete_post db post_id user_id role =
          .ok ({ db with posts := db.posts.filter (fun q => !(q.id == post_id)) },
               P) := by
        simp [delete_post, hP, hown]
      exact ⟨_, this⟩
  · intro hrole hne
    have h1 : (role != "admin") = true := by simpa using hrole
    simp [delete_post, hP, h1, hA user_id hne]

/-- Witness for C1 on the fixture store: bob (an admin) is not the author of
post 1, alice is. -/
theorem post_update_delete_authorization_witness :
    (update_post dbMain 1 2 (some "new title") none 9 =
      .error (.authorizationError "You can only update your own posts")) ∧
    ((handle_update_request dbMain (.valid 2) 1 (some "new title") none 9).1 =
      { status := 403, error := some "You can only update your own posts" }) ∧
    (∃ out, delete_post dbMain 1 2 "admin" = .ok out) ∧
    (delete_post dbMain 1 2 "user" =
      .error (.authorizationError "You can only delete your own posts")) := by
  have h := post_update_delete_authorization dbMain 1 2 "user"
    (some "new title") none 9 postA bobAdmin rfl
  exact ⟨h.1 (by decide),
         h.2.1 (by decide) (by decide) (by decide) (by decide),
         (post_update_delete_authorization dbMain 1 2 "admin"
           (some "new title") none 9 postA bobAdmin rfl).2.2.1
           (Or.inl rfl),
         h.2.2.2 (by decide) (by decide)⟩

/-- Running `deactivate_user` against a store where the subject row is
already inactive and replacing matching rows by that row changes nothing is
a no-op returning the same store. -/
theorem deactivate_user_noop (db2 : DB) (user_id now2 : Nat) (u2 : User)
    (hfind2 : db2.users.find? (fun v => v.id == user_id) = some u2)
    (hinact : u2.is_active = false)
    (hmap : db2.users.map (fun v => if v.id == user_id then u2 else v)
      = db2.users) :
    deactivate_user db2 user_id now2 = .ok (db2, u2) := by
  simp only [deactivate_user, hfind2, hinact, Bool.false_eq_true, if_false, hmap]

/-- C10: deactivating an existing user succeeds, flips only `is_active`
(id, username, email, password hash and role are untouched and no post row
changes), and a second call on the now-inactive user succeeds and leaves the
store exactly as after the first call. -/
theorem deactivate_user_frame_idempotent (db : DB) (user_id now : Nat)
    (u : User) (hfind : db.users.find? (fun v => v.id == user_id) = some u) :
    ∃ db2 u2, deactivate_user db user_id now = .ok (db2, u2) ∧
      u2.is_active = false ∧ u2.id = u.id ∧ u2.username = u.username ∧
      u2.email = u.email ∧ u2.password_hash = u.password_hash ∧
      u2.role = u.role ∧ db2.posts = db.posts ∧
      (∀ now2, deactivate_user db2 user_id now2 = .ok (db2, u2)) := by
  have hid0 := List.find?_some hfind
  have hid : (u.id == user_id) = true := hid0
  by_cases hA : u.is_active = true
  · have hk : (({ u with is_active := false, updated_at := now } : User).id
        == user_id) = true := hid
    refine ⟨{ db with users := db.users.map (fun v =>
        if v.id == user_id then { u with is_active := false, updated_at := now }
        else v) },
      { u with is_active := false, updated_at := now },
      by simp [deactivate_user, hfind, hA], rfl, rfl, rfl, rfl, rfl, rfl, rfl, ?_⟩
    intro now2
    exact deactivate_user_noop _ user_id now2 _
      (find?_map_keyed (fun v : User => v.id == user_id) _ hk db.users
        (by simp [hfind]))
      rfl
      (map_keyed_idem (fun v : User => v.id == user_id) _ hk db.users)
  · have hA2 : u.is_active = false := by simpa using hA
    refine ⟨{ db with users := db.users.map (fun v =>
        if v.id == user_id then u else v) }, u,
      by simp [deactivate_user, hfind, hA2], hA2, rfl, rfl, rfl, rfl,
      rfl, rfl, ?_⟩
    intro now2
    exact deactivate_user_noop _ user_id now2 _
      (find?_map_keyed (fun v : User => v.id == user_id) _ hid db.users
        (by simp [hfind]))
      hA2
      (map_keyed_idem (fun v : User => v.id == user_id) _ hid db.users)

/-- Witness for C10: deactivating alice in the fixture store. -/
theorem deactivate_user_frame_idempotent_witness :
    ∃ db2 u2, deactivate_user dbMain 1 3 = .ok (db2, u2) ∧
      u2.is_active = false ∧ u2.id = alice.id ∧ u2.username = alice.username ∧
      u2.email = alice.email ∧ u2.password_hash = alice.password_hash ∧
      u2.role = alice.role ∧ db2.posts = dbMain.posts ∧
      (∀ now2, deactivate_user db2 1 now2 = .ok (db2, u2)) :=
  deactivate_user_frame_idempotent dbMain 1 3 alice (by decide)

/-- Deactivated alice, as `deactivate_user` rewrites her row at instant 3. -/
def aliceDeact : User := { alice with is_active := false, updated_at := 3 }

/-- The fixture store after deactivating alice. -/
def dbMainDeact : DB := { dbMain with users := [aliceDeact, bobAdmin, carol] }

/-- A store whose row for the token subject is inactive makes
`get_current_user` answer the inactive-account authentication error. -/
theorem get_current_user_inactive (db2 : DB) (uid : Nat) (u2 : User)
    (hfind2 : db2.users.find? (fun v => v.id == uid) = some u2)
    (hinact : u2.is_active = false) :
    get_current_user db2 (.valid uid) =
      .error (.authenticationError "Account is inactive") := by
  simp only [get_current_user, verify_jwt_in_request, hfind2, hinact]
  rfl

/-- Likewise the refresh endpoint answers 401 for an inactive subject. -/
theorem refresh_view_inactive (db2 : DB) (uid : Nat) (u2 : User)
    (hfind2 : db2.users.find? (fun v => v.id == uid) = some u2)
    (hinact : u2.is_active = false) :
    refresh_view db2 (.valid uid) =
      { status := 401, error := some "Account is inactive" } := by
  simp only [refresh_view, verify_jwt_in_request, get_user_by_id, hfind2, hinact]
  rfl

/-- C8: once `deactivate_user` has succeeded for a user, a protected request
carrying a STILL-VALID (unexpired, well-signed) token for that user is
rejected by `get_current_user` with an authentication error — it can never
reach the authorized state — and a token refresh for that user answers 401. -/
theorem deactivation_invalidates_requests (db : DB) (user_id now : Nat)
    (db2 : DB) (u2 : User)
    (h : deactivate_user db user_id now = .ok (db2, u2)) :
    get_current_user db2 (.valid user_id) =
      .error (.authenticationError "Account is inactive") ∧
    (∀ v, get_current_user db2 (.valid user_id) ≠ .ok v) ∧
    refresh_view db2 (.valid user_id) =
      { status := 401, error := some "Account is inactive" } := by
  cases hfind : db.users.find? (fun v => v.id == user_id) with
  | none => simp [deactivate_user, hfind] at h
  | some u =>
      have hid0 := List.find?_some hfind
      have hid : (u.id == user_id) = true := hid0
      simp only [deactivate_user, hfind, Except.ok.injEq, Prod.mk.injEq] at h
      obtain ⟨hdb, hu⟩ := h
      by_cases hA : u.is_active = true
      · rw [if_pos hA] at hdb hu
        have hk : (({ u with is_active := false, updated_at := now } : User).id
            == user_id) = true := hid
        have hfind2 : db2.users.find? (fun v => v.id == user_id) = some u2 := by
          rw [← hdb, ← hu]
          exact find?_map_keyed (fun v : User => v.id == user_id) _ hk db.users
            (by simp [hfind])
        have hinact : u2.is_active = false := by rw [← hu]
        refine ⟨get_current_user_inactive db2 user_id u2 hfind2 hinact, ?_,
          refresh_view_inactive db2 user_id u2 hfind2 hinact⟩
        intro v hv
        rw [get_current_user_inactive db2 user_id u2 hfind2 hinact] at hv
        exact Except.noConfusion hv
      · have hA2 : u.is_active = false := by simpa using hA
        rw [if_neg hA] at hdb hu
        have hfind2 : db2.users.find? (fun v => v.id == user_id) = some u2 := by
          rw [← hdb, ← hu]
          exact find?_map_keyed (fun v : User => v.id == user_id) _ hid db.users
            (by simp [hfind])
        have hinact : u2.is_active = false := by rw [← hu]; exact hA2
        refine ⟨get_current_user_inactive db2 user_id u2 hfind2 hinact, ?_,
          refresh_view_inactive db2 user_id u2 hfind2 hinact⟩
        intro v hv
        rw [get_current_user_inactive db2 user_id u2 hfind2 hinact] at hv
        exact Except.noConfusion hv

/-- Witness for C8: after deactivating alice, her still-valid token is
rejected everywhere. -/
theorem deactivation_invalidates_requests_witness :
    get_current_user dbMainDeact (.valid 1) =
      .error (.authenticationError "Account is inactive") ∧
    (∀ v, get_current_user dbMainDeact (.valid 1) ≠ .ok v) ∧
    refresh_view dbMainDeact (.valid 1) =
      { status := 401, error := some "Account is inactive" } :=
  deactivation_invalidates_requests dbMain 1 3 dbMainDeact aliceDeact rfl

/-- C7: `authenticate_user` looks its subject up by lowercased username or
email; it answers the SAME generic `AuthenticationError` when no user
matches and when the password fails to verify, an authentication error when
the matched user is inactive, and returns the matched user exactly when the
user exists, is active and the password verifies. -/
theorem authenticate_user_cases (db : DB) (username password : String) :
    (db.users.find? (fun v => v.username == pyLower username
        || v.email == pyLower username) = none →
      authenticate_user db username password =
        .error (.authenticationError "Invalid username or password")) ∧
    (∀ u, db.users.find? (fun v => v.username == pyLower username
        || v.email == pyLower username) = some u →
      (u.is_active = false →
        authenticate_user db username password =
          .error (.authenticationError "Account is inactive")) ∧
      (u.is_active = true → verify_password password u.password_hash = false →
        authenticate_user db username password =
          .error (.authenticationError "Invalid username or password")) ∧
      (u.is_active = true → verify_password password u.password_hash = true →
        authenticate_user db username password = .ok u)) := by
  constructor
  · intro hnone
    simp [authenticate_user, hnone]
  · intro u hsome
    refine ⟨?_, ?_, ?_⟩
    · intro hinact
      simp [authenticate_user, hsome, hinact]
    · intro hact hbad
      simp [authenticate_user, hsome, hact, hbad]
    · intro hact hok
      simp [authenticate_user, hsome, hact, hok]

/-- Witness for C7 on the fixture store: an unknown name, the deactivated
carol (looked up with different casing), a wrong password for alice, and a
successful login by alice via her email. -/
theorem authenticate_user_cases_witness :
    authenticate_user dbMain "nobody" "Str0ngpw" =
      .error (.authenticationError "Invalid username or password") ∧
    authenticate_user dbMain "CAROL" "Str0ngpw" =
      .error (.authenticationError "Account is inactive") ∧
    authenticate_user dbMain "Alice" "wrong" =
      .error (.authenticationError "Invalid username or password") ∧
    authenticate_user dbMain "alice@X.com" "Str0ngpw" = .ok alice :=
  ⟨(authenticate_user_cases dbMain "nobody" "Str0ngpw").1 (by decide),
   ((authenticate_user_cases dbMain "CAROL" "Str0ngpw").2 carol (by decide)).1
     (by decide),
   ((authenticate_user_cases dbMain "Alice" "wrong").2 alice (by decide)).2.1
     (by decide) (by decide),
   ((authenticate_user_cases dbMain "alice@X.com" "Str0ngpw").2 alice
     (by decide)).2.2 (by decide) (by decide)⟩

/-- C6: pagination defaults (absent page is 1, absent per_page is 10);
page < 1, per_page outside [1, 100] and non-numeric values fail with a
field-level `ValidationError` — and such a failure is produced identically
for every store, i.e. before any store access; concretely per_page = 0 and
per_page = 101 fail, and page 1 of 15 posts at per_page = 10 has 10 items
and 2 pages. -/
theorem pagination_validation_spec :
    (validate_pagination none none = .ok (1, 10)) ∧
    (∀ pp, validate_pagination (some .bad) pp =
      .error (.validationError "Page must be a number" (some "page"))) ∧
    (∀ n : Int, n < 1 → ∀ pp, validate_pagination (some (.int n)) pp =
      .error (.validationError "Page must be >= 1" (some "page"))) ∧
    (∀ n : Int, 1 ≤ n → validate_pagination (some (.int n)) (some .bad) =
      .error (.validationError "Per page must be a number" (some "per_page"))) ∧
    (∀ n m : Int, 1 ≤ n → m < 1 →
      validate_pagination (some (.int n)) (some (.int m)) =
        .error (.validationError "Per page must be >= 1" (some "per_page"))) ∧
    (∀ n m : Int, 1 ≤ n → 100 < m →
      validate_pagination (some (.int n)) (some (.int m)) =
        .error (.validationError "Per page must be <= 100" (some "per_page"))) ∧
    (∀ db page per_page e, validate_pagination page per_page = .error e →
      get_all_posts db page per_page = .error e) ∧
    (get_all_posts db15 (some (.int 1)) (some (.int 0)) =
      .error (.validationError "Per page must be >= 1" (some "per_page"))) ∧
    (get_all_posts db15 (some (.int 1)) (some (.int 101)) =
      .error (.validationError "Per page must be <= 100" (some "per_page"))) ∧
    ((get_all_posts db15 (some (.int 1)) (some (.int 10))).toOption.map
      (fun r => (r.items.length, r.pages)) = some (10, 2)) := by
  refine ⟨rfl, fun pp => rfl, ?_, ?_, ?_, ?_, ?_, ?_, ?_, ?_⟩
  · intro n hn pp
    simp [validate_pagination, hn]
  · intro n hn
    simp [validate_pagination, not_lt.mpr hn]
  · intro n m hn hm
    simp [validate_pagination, not_lt.mpr hn, hm]
  · intro n m hn hm
    have hm1 : ¬ m < 1 := not_lt.mpr (le_trans (by norm_num) (le_of_lt hm))
    simp [validate_pagination, not_lt.mpr hn, hm1, hm]
  · intro db page per_page e h
    simp [get_all_posts, h]
  · rfl
  · rfl
  · decide

set_option maxRecDepth 20000 in
/-- C3 (amended): registration fails with a field-naming `DuplicateUser`
error when the pre-flight read sees a stored user holding the lowercased
username or email; a unique-constraint violation first caught at commit time
is also translated to `DuplicateUser` rather than a generic database error,
but it ALWAYS names the field `username` — the handler substring-matches
`str(e)`, whose echoed INSERT column list contains `username` whatever
constraint was violated — so a commit-time email duplicate is misreported
as a username duplicate; a successful registration stores lowercased
username and email with role "user" and `is_active` true. -/
theorem register_user_duplicates_and_normalization
    (dbRead dbCommit : DB) (username email password : String) (salt now : Nat) :
    ((∃ u ∈ dbRead.users, u.username = pyLower username) →
      register_user dbRead dbCommit username email password "user" salt now =
        .error (.duplicateUserError "username" username)) ∧
    (dbRead.users.find? (fun u => u.username == pyLower username) = none →
      (∃ u ∈ dbRead.users, u.email = pyLower email) →
      register_user dbRead dbCommit username email password "user" salt now =
        .error (.duplicateUserError "email" email)) ∧
    (dbRead.users.find? (fun u => u.username == pyLower username) = none →
      dbRead.users.find? (fun u => u.email == pyLower email) = none →
      dbCommit.users.any (fun v => v.username == pyLower username) = true →
      register_user dbRead dbCommit username email password "user" salt now =
        .error (.duplicateUserError "username" username)) ∧
    (dbRead.users.find? (fun u => u.username == pyLower username) = none →
      dbRead.users.find? (fun u => u.email == pyLower email) = none →
      dbCommit.users.any (fun v => v.username == pyLower username) = false →
      dbCommit.users.any (fun v => v.email == pyLower email) = true →
      register_user dbRead dbCommit username email password "user" salt now =
        .error (.duplicateUserError "username" username)) ∧
    (dbRead.users.find? (fun u => u.username == pyLower username) = none →
      dbRead.users.find? (fun u => u.email == pyLower email) = none →
      dbCommit.users.any (fun v => v.username == pyLower username) = false →
      dbCommit.users.any (fun v => v.email == pyLower email) = false →
      3 ≤ (pyLower username).length →
      strContains (pyLower email) "@" = true →
      ∃ db2 user, register_user dbRead dbCommit username email password "user"
          salt now = .ok (db2, user) ∧
        user.username = pyLower username ∧ user.email = pyLower email ∧
        user.role = "user" ∧ user.is_active = true) := by
  refine ⟨?_, ?_, ?_, ?_, ?_⟩
  · intro hdup
    have hs : (dbRead.users.find?
        (fun u => u.username == pyLower username)).isSome = true := by
      rw [List.find?_isSome]
      obtain ⟨u, hu, he⟩ := hdup
      exact ⟨u, hu, by simp [he]⟩
    simp [register_user, hs]
  · intro hnu hdup
    have hs : (dbRead.users.find?
        (fun u => u.email == pyLower email)).isSome = true := by
      rw [List.find?_isSome]
      obtain ⟨u, hu, he⟩ := hdup
      exact ⟨u, hu, by simp [he]⟩
    simp [register_user, hnu, hs]
  · intro hnu hne hc
    have hmsg : strContains (pyLower
        ("(sqlite3.IntegrityError) UNIQUE constraint failed: users.username"
          ++ insert_echo)) "username" = true := by decide
    simp [register_user, hnu, hne, user_insert_commit, hc, hmsg]
  · intro hnu hne hcu hce
    have hmsg : strContains (pyLower
        ("(sqlite3.IntegrityError) UNIQUE constraint failed: users.email"
          ++ insert_echo)) "username" = true := by decide
    simp [register_user, hnu, hne, user_insert_commit, hcu, hce, hmsg]
  · intro hnu hne hcu hce hlen hat
    refine ⟨{ dbCommit with
        users := dbCommit.users ++
          [{ id := dbCommit.nextUserId, username := pyLower username,
             email := pyLower email, password_hash := hash_password salt password,
             role := "user", is_active := true, created_at := now,
             updated_at := now }],
        nextUserId := dbCommit.nextUserId + 1 },
      { id := dbCommit.nextUserId, username := pyLower username,
        email := pyLower email, password_hash := hash_password salt password,
        role := "user", is_active := true, created_at := now, updated_at := now },
      ?_, rfl, rfl, rfl, rfl⟩
    have hlen2 : ¬ (pyLower username).length < 3 := not_lt.mpr hlen
    simp [register_user, hnu, hne, user_insert_commit, hcu, hce, hlen2, hat]

/-- Witness for C3 on the fixture store: re-registering alice with different
casing fails on the pre-flight read (naming the right field), commit-time
races are translated to `DuplicateUser` (the email race naming `username`
through the echoed statement), and a fresh registration stores normalized
fields. -/
theorem register_user_duplicates_witness :
    (register_user dbMain dbMain "Alice" "new@x.com" "pw" "user" 9 7 =
      .error (.duplicateUserError "username" "Alice")) ∧
    (register_user dbMain dbMain "dave" "ALICE@X.COM" "pw" "user" 9 7 =
      .error (.duplicateUserError "email" "ALICE@X.COM")) ∧
    (register_user { dbMain with users := [] } dbMain "Alice" "new@x.com" "pw"
        "user" 9 7 = .error (.duplicateUserError "username" "Alice")) ∧
    (register_user { dbMain with users := [] } dbMain "dave" "ALICE@X.COM" "pw"
        "user" 9 7 = .error (.duplicateUserError "username" "dave")) ∧
    (∃ db2 user, register_user dbMain dbMain "Dave" "Dave@X.com" "pw" "user" 9 7
        = .ok (db2, user) ∧
      user.username = "dave" ∧ user.email = "dave@x.com" ∧
      user.role = "user" ∧ user.is_active = true) := by
  refine ⟨(register_user_duplicates_and_normalization dbMain dbMain "Alice"
      "new@x.com" "pw" 9 7).1 ⟨alice, by decide, by decide⟩,
    (register_user_duplicates_and_normalization dbMain dbMain "dave"
      "ALICE@X.COM" "pw" 9 7).2.1 (by decide) ⟨alice, by decide, by decide⟩,
    (register_user_duplicates_and_normalization { dbMain with users := [] }
      dbMain "Alice" "new@x.com" "pw" 9 7).2.2.1 (by decide) (by decide)
      (by decide),
    (register_user_duplicates_and_normalization { dbMain with users := [] }
      dbMain "dave" "ALICE@X.COM" "pw" 9 7).2.2.2.1 (by decide) (by decide)
      (by decide) (by decide),
    ?_⟩
  obtain ⟨db2, user, hok, h1, h2, h3, h4⟩ :=
    (register_user_duplicates_and_normalization dbMain dbMain "Dave"
      "Dave@X.com" "pw" 9 7).2.2.2.2 (by decide) (by decide) (by decide)
      (by decide) (by decide) (by decide)
  exact ⟨db2, user, hok, by rw [h1]; decide, by rw [h2]; decide, h3, h4⟩

set_option maxRecDepth 40000 in
/-- C3 counterexample: registering dave with alice's email against a store
where only the commit-time check can see the duplicate (the pre-flight reads
run on an empty snapshot, and no username duplicate exists) fails with
`DuplicateUser` naming `username`, not the duplicated field `email`: the
`IntegrityError` text echoes the INSERT column list, so `username` is a
substring of every such failure and the classifier's first branch wins. -/
theorem register_email_race_misnamed_counterexample :
    register_user { dbMain with users := [] } dbMain "dave" "ALICE@X.COM" "pw"
      "user" 9 7 = .error (.duplicateUserError "username" "dave") ∧
    BlogError.duplicateUserError "username" "dave" ≠
      .duplicateUserError "email" "ALICE@X.COM" ∧
    (∃ u ∈ dbMain.users, u.email = pyLower "ALICE@X.COM") ∧
    dbMain.users.any (fun v => v.username == pyLower "dave") = false :=
  ⟨rfl, by decide, ⟨alice, by decide, by decide⟩, by decide⟩

/-- A successful `get_post_by_id` is exactly a successful `find?` on the
posts table. -/
theorem get_post_by_id_find (db : DB) (post_id : Nat) (P : Post)
    (hP : get_post_by_id db post_id = .ok P) :
    db.posts.find? (fun p => p.id == post_id) = some P := by
  cases hf : db.posts.find? (fun p => p.id == post_id) with
  | none => simp [get_post_by_id, hf] at hP
  | some q =>
      simp only [get_post_by_id, hf, Except.ok.injEq] at hP
      exact congrArg some hP

/-- C4: when the author updates an existing post, only the provided fields
change — an absent field keeps its stored value, and id, author_id and
created_at are never changed, other rows and the user table are untouched —
and the route re-validates the provided values (title 1–200 characters,
content at least 10) before any commit, answering a validation error and
leaving the store unchanged when they violate the constraints. -/
theorem update_post_frame_and_validation (db : DB) (post_id : Nat)
    (title content : Option String) (now : Nat) (P : Post) (u : User)
    (hP : get_post_by_id db post_id = .ok P) :
    (∀ db2 P2,
      update_post db post_id P.author_id title content now = .ok (db2, P2) →
      P2.id = P.id ∧ P2.author_id = P.author_id ∧ P2.created_at = P.created_at ∧
      P2.title = title.getD P.title ∧ P2.content = content.getD P.content ∧
      db2.users = db.users ∧ get_post_by_id db2 post_id = .ok P2) ∧
    (db.users.find? (fun v => v.id == u.id) = some u → u.is_active = true →
      postUpdate_valid title content = false →
      handle_update_request db (.valid u.id) post_id title content now =
        ({ status := 400, error := some "validation error" }, db)) := by
  have hfindP := get_post_by_id_find db post_id P hP
  have hpid0 := List.find?_some hfindP
  have hpid : (P.id == post_id) = true := hpid0
  have hself : P.is_author P.author_id = true := by simp [Post.is_author]
  constructor
  · intro db2 P2 hok
    simp only [update_post, hP, hself, Bool.not_true, Bool.false_eq_true,
      if_false] at hok
    by_cases hchg : (title.getD P.title == P.title &&
        content.getD P.content == P.content) = true
    · obtain ⟨ht, hc⟩ : title.getD P.title = P.title ∧
          content.getD P.content = P.content := by simpa using hchg
      simp only [hchg, eq_self_iff_true, if_true] at hok
      cases hrow : post_row_ok P with
      | false => simp [hrow] at hok
      | true =>
          simp only [hrow, Bool.not_true, Bool.false_eq_true, if_false,
            Except.ok.injEq, Prod.mk.injEq] at hok
          obtain ⟨hdb2, hp2⟩ := hok
          have hfind2 : db2.posts.find? (fun p => p.id == post_id) = some P2 := by
            rw [← hdb2, ← hp2]
            exact find?_map_keyed (fun p : Post => p.id == post_id) _ hpid
              db.posts (by simp [hfindP])
          exact ⟨by rw [← hp2], by rw [← hp2], by rw [← hp2],
            by rw [← hp2, ht], by rw [← hp2, hc],
            by rw [← hdb2], by simp [get_post_by_id, hfind2]⟩
    · have hchg2 : (title.getD P.title == P.title &&
          content.getD P.content == P.content) = false := by
        simpa using hchg
      simp only [hchg2, Bool.false_eq_true, if_false] at hok
      cases hrow : post_row_ok ({ P with title := title.getD P.title, content := content.getD P.content, updated_at := now }) with
      | false => simp [hrow] at hok
      | true =>
          simp only [hrow, Bool.not_true, Bool.false_eq_true, if_false,
            Except.ok.injEq, Prod.mk.injEq] at hok
          obtain ⟨hdb2, hp2⟩ := hok
          have hpid2 : (({ P with title := title.getD P.title, content := content.getD P.content, updated_at := now } : Post).id == post_id) = true := hpid
          have hfind2 : db2.posts.find? (fun p => p.id == post_id) = some P2 := by
            rw [← hdb2, ← hp2]
            exact find?_map_keyed (fun p : Post => p.id == post_id) _ hpid2
              db.posts (by simp [hfindP])
          exact ⟨by rw [← hp2], by rw [← hp2], by rw [← hp2],
            by rw [← hp2], by rw [← hp2],
            by rw [← hdb2], by simp [get_post_by_id, hfind2]⟩
  · intro hfind hact hval
    simp [handle_update_request, jwt_required, verify_jwt_in_request,
      update_post_view, get_current_user, hfind, hact, hval]

/-- Post 1 after the author replaces its title at instant 9. -/
def postAupd : Post := { postA with title := "updated title", updated_at := 9 }

/-- The fixture store after that update. -/
def dbMainUpd : DB := { dbMain with posts := [postAupd, postB] }

/-- Witness for C4: alice updates her post 1 providing only a title; and an
empty provided title is rejected with the store untouched. -/
theorem update_post_frame_and_validation_witness :
    (postAupd.id = postA.id ∧ postAupd.author_id = postA.author_id ∧
     postAupd.created_at = postA.created_at ∧
     postAupd.title = (some "updated title").getD postA.title ∧
     postAupd.content = (none : Option String).getD postA.content ∧
     dbMainUpd.users = dbMain.users ∧
     get_post_by_id dbMainUpd 1 = .ok postAupd) ∧
    handle_update_request dbMain (.valid 1) 1 (some "") none 9 =
      ({ status := 400, error := some "validation error" }, dbMain) :=
  ⟨(update_post_frame_and_validation dbMain 1 (some "updated title") none 9
      postA alice rfl).1 dbMainUpd postAupd rfl,
   (update_post_frame_and_validation dbMain 1 (some "") none 9
      postA alice rfl).2 rfl rfl rfl⟩

/-- The total order the specification claims for listings: newer first, and
on equal creation times larger id first. -/
def newestFirstTieIdDesc (l : List Post) : Prop :=
  l.Pairwise (fun a b => b.created_at < a.created_at ∨
    (b.created_at = a.created_at ∧ b.id < a.id))

/-- C5 counterexample: the fixture store holds two posts with EQUAL creation
times, inserted in id order 1 then 2; `get_all_posts` returns them in that
insertion order, id ASCENDING, so the claimed id-descending tie-break does
not hold of the code, whose query orders by `created_at` alone. -/
theorem get_all_posts_tie_order_counterexample :
    postA.created_at = postB.created_at ∧ postA.id < postB.id ∧
    (get_all_posts dbMain none none).toOption.map Paginated.items =
      some [postA, postB] ∧
    ¬ newestFirstTieIdDesc [postA, postB] := by
  refine ⟨rfl, by decide, rfl, ?_⟩
  intro h
  have h1 := (List.pairwise_cons.mp h).1 postB (by simp)
  rcases h1 with h1 | ⟨_, h1⟩ <;> exact absurd h1 (by decide)

/-- C5 (amended): `get_all_posts` returns the page items ordered
newest-first by creation time (adjacent items have non-increasing
`created_at`), drawn from a permutation of the stored rows; the order of
posts with equal creation time is the store's row order, not an
id-descending tie-break. -/
theorem get_all_posts_sorted_newest_first (db : DB) (page per_page : Option PVal)
    (r : Paginated) (h : get_all_posts db page per_page = .ok r) :
    r.items.Pairwise (fun a b => b.created_at ≤ a.created_at) ∧
    List.Perm (orderByCreatedDesc db.posts) db.posts := by
  refine ⟨?_, orderByCreatedDesc_perm db.posts⟩
  cases hv : validate_pagination page per_page with
  | error e => simp [get_all_posts, hv] at h
  | ok pr =>
      obtain ⟨p, pp⟩ := pr
      simp only [get_all_posts, hv, Except.ok.injEq] at h
      subst h
      have hsub : (((orderByCreatedDesc db.posts).drop
          ((p - 1).toNat * pp.toNat)).take pp.toNat).Sublist
          (orderByCreatedDesc db.posts) :=
        (List.take_sublist _ _).trans (List.drop_sublist _ _)
      exact (orderByCreatedDesc_sorted db.posts).sublist hsub

/-- The listing `get_all_posts dbMain` produces. -/
def rC5 : Paginated :=
  { items := [postA, postB], total := 2, page := 1, per_page := 10, pages := 1 }

/-- Witness for C5 (amended) on the fixture store. -/
theorem get_all_posts_sorted_newest_first_witness :
    rC5.items.Pairwise (fun a b => b.created_at ≤ a.created_at) ∧
    List.Perm (orderByCreatedDesc dbMain.posts) dbMain.posts :=
  get_all_posts_sorted_newest_first dbMain none none rC5 rfl

/-- C2 (divergence evidence): on a `@jwt_required` route, a missing,
malformed or expired token — and a valid token whose subject user no longer
exists — ends as HTTP 500, because the wrapper's collapsed
`AuthenticationError("Authentication required")` has no registered Flask
handler, while an inactive subject yields 401 with the distinguishing
message "Account is inactive"; `get_current_user` itself re-raises a
distinct `UserNotFoundError` for a deleted subject. The claim (and the
repository's own docstrings and tests) say every such failure is one
AuthenticationRequired error mapped to 401. -/
theorem auth_failures_not_collapsed_to_401 :
    ((handle_update_request dbMain .missing 1 none none 9).1 =
      { status := 500, error := some "Internal server error" }) ∧
    ((handle_update_request dbMain .malformed 1 none none 9).1 =
      { status := 500, error := some "Internal server error" }) ∧
    ((handle_update_request dbMain .expired 1 none none 9).1 =
      { status := 500, error := some "Internal server error" }) ∧
    ((handle_update_request dbMain (.valid 42) 1 none none 9).1 =
      { status := 500, error := some "Internal server error" }) ∧
    (get_current_user dbMain (.valid 42) =
      .error (.userNotFoundError (some 42))) ∧
    ((handle_update_request dbMain (.valid 7) 1 none none 9).1 =
      { status := 401, error := some "Account is inactive" }) :=
  ⟨by decide, by decide, by decide, by decide, rfl, by decide⟩

end BlogAPI
